import Mathlib

/-!
Shallow embedding of `audio2yt_app.py`: a single-file Streamlit app that
saves an uploaded wav into a temp directory, transcribes it (Whisper),
generates thumbnails (OpenAI Images), builds an MP4 via an FFmpeg
shell-out, and uploads the result to YouTube.

External collaborators (whisper model, image API, ffmpeg process, YouTube
client) are modelled as oracles: their responses are parameters of the
run.  One execution of the script body (one Streamlit run) is the function
`runScript`, which records the UI events emitted, the external calls made,
the file writes performed, and the final session state.
-/

namespace Audio2YT

/-- Directory roots that the app writes into.  `tmpRoot` models
`TMP_ROOT = tempfile.gettempdir()/dre_audio2yt`; `cwd` models
`Path.cwd()` (the project directory). -/
inductive Dir where
  | tmpRoot
  | cwd
deriving DecidableEq, Repr

/-- A file path: a root directory plus a file name. -/
structure FPath where
  dir : Dir
  name : String
deriving DecidableEq, Repr

/-- Rendering of a path as the string handed to external tools
(`str(path)` in the source). -/
def FPath.toStr : FPath → String
  | ⟨Dir.tmpRoot, n⟩ => "/tmp/dre_audio2yt/" ++ n
  | ⟨Dir.cwd, n⟩ => "./" ++ n

/-- Python exceptions that the script can observe. `extError` is an
exception propagated out of an external library call; the other
constructors are raised by the script's own code. -/
inductive PyError where
  | runtimeError (msg : String)
  | calledProcessError (returncode : Nat) (cmd : List String)
  | extError (msg : String)
deriving DecidableEq, Repr

/-- `str(e)` for the exceptions above. -/
def PyError.str : PyError → String
  | .runtimeError m => m
  | .calledProcessError code cmd =>
      "Command " ++ toString cmd ++ " returned non-zero exit status "
        ++ toString code ++ "."
  | .extError m => m

/-- Error value returned by a failing external collaborator. -/
structure ExtErr where
  msg : String
deriving DecidableEq, Repr

/-- The `snippet` part of the YouTube insert request body. -/
structure Snippet where
  title : String
  description : String
  tags : List String
  categoryId : String
deriving DecidableEq, Repr

/-- The `status` part of the YouTube insert request body. -/
structure UploadStatus where
  privacyStatus : String
deriving DecidableEq, Repr

/-- The YouTube insert request body built in `youtube_uploader`. -/
structure Body where
  snippet : Snippet
  status : UploadStatus
deriving DecidableEq, Repr

/-- The response of `request.execute()`: the script only reads its
`"id"` field. -/
structure UploadResponse where
  id : String
deriving DecidableEq, Repr

/-- One call to an external system, with its arguments. -/
inductive ExtCall where
  | transcribe (wav : FPath)
  | imageGen (i : Nat) (prompt : String)
  | credsRead
  | buildClient
  | ffmpegRun (audio image out : FPath)
  | uploadInsert (body : Body) (media : FPath)
deriving DecidableEq, Repr

/-- The pipeline step an external call belongs to: transcription (0),
thumbnail generation (1), video build (2), upload (3). -/
def ExtCall.stepKind : ExtCall → Nat
  | .transcribe _ => 0
  | .imageGen _ _ => 1
  | .ffmpegRun _ _ _ => 2
  | .credsRead => 3
  | .buildClient => 3
  | .uploadInsert _ _ => 3

/-- Whether an external call is the FFmpeg shell-out. -/
def ExtCall.isFfmpegRun : ExtCall → Bool
  | .ffmpegRun _ _ _ => true
  | _ => false

/-- Fixed (mocked) responses of the external collaborators for one run.
`whisper` is the `result` of `model.transcribe` (its `"text"` field,
before `.strip()`); `imageGen i prompt` is the `b64_json` of the i-th
`openai.images.generate` call; `ffmpegExit` is the exit status of the
FFmpeg process and `ffmpegOut` the bytes it writes on success;
`uploadResp` is the result of `request.execute()`. -/
structure Oracles where
  whisper : Except ExtErr String
  imageGen : Nat → String → Except ExtErr String
  b64decode : String → String
  ffmpegExit : Nat
  ffmpegOut : String
  uploadResp : Except ExtErr UploadResponse

/-- Facts about the machine the run happens on. -/
structure World where
  openaiKeySet : Bool
  ffmpegExists : Bool
  tokenExists : Bool
  time : Nat

/-- Streamlit session state: the keys the script uses.  A key that was
never set is `none` (the script initialises missing keys to `None`). -/
structure Session where
  transcript : Option String := none
  transcriptionError : Option String := none
  tx : Option String := none
deriving DecidableEq, Repr

/-- User interaction with the widgets during one run. -/
structure Inputs where
  uploaded : Bool
  uploadedName : String
  uploadedBytes : String
  sess : Session
  retryClicked : Bool
  renderClicked : Bool
  uploadClicked : Bool
  txEdited : Option String

/-- A UI element emitted during the run. -/
inductive UIEvent where
  | success (msg : String)
  | errorMsg (msg : String)
  | textArea (label : String) (value : String)
  | image (p : FPath)
  | button (label : String)
  | video (p : FPath)
deriving DecidableEq, Repr

/-- Whether a UI event is an `st.error` message. -/
def UIEvent.isErrorMsg : UIEvent → Bool
  | .errorMsg _ => true
  | _ => false

/-- How the script run ended: fell off the end, `st.stop()`, or an
exception that no handler in the script caught. -/
inductive Outcome where
  | finished
  | stopped
  | uncaught (e : PyError)
deriving DecidableEq, Repr

/-- Everything observable about one run of the script body. -/
structure RunResult where
  events : List UIEvent
  calls : List ExtCall
  writes : List (FPath × String)
  session : Session
  outcome : Outcome

/-- Python truthiness of an optional string (`if st.session_state[k]:`):
`None` and the empty string are falsy. -/
def truthyStr : Option String → Bool
  | none => false
  | some s => !s.data.isEmpty

/-- Python `f"...{v}..."` rendering of an optional string: `None` prints
as `"None"`. -/
def pyShowOpt : Option String → String
  | none => "None"
  | some s => s

def FFMPEG_BIN : String := "/usr/local/bin/ffmpeg"

/-- Last index of a character in a list of characters. -/
def lastIdxOf (c : Char) : List Char → Option Nat
  | [] => none
  | x :: xs =>
      match lastIdxOf c xs with
      | some j => some (j + 1)
      | none => if x = c then some 0 else none

/-- `pathlib.PurePath.stem`: the file name with its last suffix removed;
the suffix only counts when the last dot is neither the first nor the
last character. -/
def stem (name : String) : String :=
  match lastIdxOf '.' name.data with
  | some i => if 0 < i ∧ i < name.data.length - 1 then ⟨name.data.take i⟩ else name
  | none => name

/-- Python whitespace, as recognised by `str.strip()`. -/
def pySpace (c : Char) : Bool :=
  c == ' ' || c == '\t' || c == '\n' || c == '\x0b' || c == '\x0c' || c == '\r'

/-- `str.strip()`: drop leading and trailing whitespace. -/
def pyStrip (s : String) : String :=
  ⟨((s.data.dropWhile pySpace).reverse.dropWhile pySpace).reverse⟩

/-- `s[:n]`: the first `n` characters of a string. -/
def pyTake (s : String) (n : Nat) : String := ⟨s.data.take n⟩

/-- `str.replace(a, b)` for single-character arguments: replace every
occurrence of `a` by `b`. -/
def pyReplaceChar (a b : Char) (s : String) : String :=
  ⟨s.data.map (fun c => if c = a then b else c)⟩

/-- `transcribe_with_local_whisper`: call the whisper model and return
`result["text"].strip()`. -/
def transcribe_with_local_whisper (o : Oracles) (wav : FPath) :
    Except PyError String × List ExtCall :=
  match o.whisper with
  | .ok t => (.ok (pyStrip t), [.transcribe wav])
  | .error e => (.error (.extError e.msg), [.transcribe wav])

/-- `do_transcription` from the UI: store the transcript and clear the
error on success; store `str(e)` and clear the transcript on failure. -/
def do_transcription (o : Oracles) (wav : FPath) (s : Session) :
    Session × List ExtCall :=
  match transcribe_with_local_whisper o wav with
  | (.ok t, cs) =>
      ({ s with transcript := some t, transcriptionError := none }, cs)
  | (.error e, cs) =>
      ({ s with transcriptionError := some e.str, transcript := none }, cs)

/-- Name of the i-th generated thumbnail file
(`thumb_{int(time.time())}_{i}.png`). -/
def thumbName (t i : Nat) : String :=
  "thumb_" ++ toString t ++ "_" ++ toString i ++ ".png"

/-- The loop body of `generate_thumbnails`, iterations `i, i+1, ...`
with `k` iterations left: each iteration calls the image API, decodes the
base64 payload, and writes it under `TMP_ROOT`; an API exception
propagates out after the writes already made. -/
def genThumbsGo (o : Oracles) (w : World) (prompt : String) :
    Nat → Nat →
      Except PyError (List FPath) × List ExtCall × List (FPath × String)
  | _, 0 => (.ok [], [], [])
  | i, k + 1 =>
      match o.imageGen i prompt with
      | .error e => (.error (.extError e.msg), [.imageGen i prompt], [])
      | .ok b64 =>
          let bytes := o.b64decode b64
          let p : FPath := ⟨Dir.tmpRoot, thumbName w.time i⟩
          let rest := genThumbsGo o w prompt (i + 1) k
          (rest.1.map (fun ps => p :: ps),
           .imageGen i prompt :: rest.2.1,
           (p, bytes) :: rest.2.2)

/-- `generate_thumbnails(prompt, count=3)`: `count` API calls, one image
file written per iteration, returning the list of paths. -/
def generate_thumbnails (o : Oracles) (w : World) (prompt : String)
    (count : Nat := 3) :
    Except PyError (List FPath) × List ExtCall × List (FPath × String) :=
  genThumbsGo o w prompt 0 count

/-- The FFmpeg command line built by `build_video`. -/
def ffmpegCmd (audio image out : FPath) : List String :=
  [FFMPEG_BIN, "-y", "-loop", "1", "-i", image.toStr, "-i", audio.toStr,
   "-c:v", "libx264", "-tune", "stillimage", "-c:a", "aac", "-b:a", "192k",
   "-pix_fmt", "yuv420p", "-shortest", out.toStr]

/-- `subprocess.run(cmd, check=True)`: raises `CalledProcessError` on a
nonzero exit status, returns normally on zero. -/
def subprocessRun (exitCode : Nat) (cmd : List String) :
    Except PyError Unit :=
  if exitCode ≠ 0 then .error (.calledProcessError exitCode cmd) else .ok ()

/-- `build_video(audio, image, out_mp4)`: one FFmpeg shell-out with
`check=True`; on success the encoder has written the output MP4. -/
def build_video (o : Oracles) (audio image out : FPath) :
    Except PyError Unit × List ExtCall × List (FPath × String) :=
  let cmd := ffmpegCmd audio image out
  (subprocessRun o.ffmpegExit cmd,
   [.ffmpegRun audio image out],
   if o.ffmpegExit = 0 then [(out, o.ffmpegOut)] else [])

/-- The message of the `RuntimeError` raised when the OAuth token file is
missing. -/
def tokenMissingMsg : String :=
  "YouTube OAuth token JSON not found—run the OAuth flow first."

/-- `youtube_uploader(mp4, title, desc)`: raise `RuntimeError` when the
token file is missing (before any client construction or network call);
otherwise read the credentials, build the client, issue the insert
request and return the `"id"` field of its response. -/
def youtube_uploader (w : World) (o : Oracles) (mp4 : FPath)
    (title desc : String) : Except PyError String × List ExtCall :=
  if !w.tokenExists then
    (.error (.runtimeError tokenMissingMsg), [])
  else
    let body : Body :=
      { snippet := { title := title, description := desc,
                     tags := ["audio2yt", "ollama", "Whisper"],
                     categoryId := "28" },
        status := { privacyStatus := "public" } }
    ((o.uploadResp.mapError (fun e => PyError.extError e.msg)).map
       (fun r => r.id),
     [.credsRead, .buildClient, .uploadInsert body mp4])

/-- `st.radio(label="", options=["Use this"], ...)`: the widget defaults
to index 0, so it returns the first option. -/
def st_radio (options : List String) : Option String := options.head?

/-- The `chosen_idx` loop over the thumbnails: start at 0 and set
`chosen_idx = i` whenever the i-th radio's value is truthy. -/
def chooseIdx (n : Nat) : Nat :=
  (List.range n).foldl
    (fun acc i => if truthyStr (st_radio ["Use this"]) then i else acc) 0

/-- One run of the script body (one Streamlit execution), from the
module-level environment checks through Step 4. -/
def runScript (inp : Inputs) (w : World) (o : Oracles) : RunResult :=
  if !w.openaiKeySet then
    { events := [.errorMsg "OPENAI_API_KEY not set in your environment"],
      calls := [], writes := [], session := inp.sess, outcome := .stopped }
  else if !w.ffmpegExists then
    { events := [.errorMsg ("FFmpeg not found at " ++ FFMPEG_BIN
        ++ ". Install via Homebrew or edit FFMPEG_BIN.")],
      calls := [], writes := [], session := inp.sess, outcome := .stopped }
  else if !inp.uploaded then
    { events := [], calls := [], writes := [], session := inp.sess,
      outcome := .finished }
  else
    let origPath : FPath := ⟨Dir.tmpRoot, inp.uploadedName⟩
    let writes0 := [(origPath, inp.uploadedBytes)]
    let ev0 := [UIEvent.success ("Saved " ++ inp.uploadedName)]
    let s1c1 :=
      if inp.sess.transcript.isNone && inp.sess.transcriptionError.isNone then
        do_transcription o origPath inp.sess
      else (inp.sess, [])
    let s1 := s1c1.1
    let c1 := s1c1.2
    if truthyStr s1.transcript then
      let txVal := inp.txEdited.getD (pyShowOpt s1.transcript)
      let s2 := { s1 with tx := some txVal }
      let ev1 := ev0 ++
        [UIEvent.textArea "Transcript (editable before upload)" txVal]
      let prompt := pyTake (pyShowOpt s1.transcript) 200
      let gt := generate_thumbnails o w prompt 3
      let c2 := gt.2.1
      let w2 := gt.2.2
      match gt.1 with
      | .error e =>
          { events := ev1, calls := c1 ++ c2, writes := writes0 ++ w2,
            session := s2, outcome := .uncaught e }
      | .ok thumbs =>
          let evThumbs := thumbs.map (fun p => UIEvent.image p)
          let chosen_thumb := thumbs.getD (chooseIdx thumbs.length)
            ⟨Dir.tmpRoot, ""⟩
          let ev2 := ev1 ++ evThumbs ++ [UIEvent.button "🔧 Render MP4"]
          if inp.renderClicked then
            let mp4_path : FPath := ⟨Dir.cwd, stem inp.uploadedName ++ ".mp4"⟩
            let bv := build_video o origPath chosen_thumb mp4_path
            let c3 := bv.2.1
            let w3 := bv.2.2
            match bv.1 with
            | .error e =>
                { events := ev2 ++ [.errorMsg ("FFmpeg error: " ++ e.str)],
                  calls := c1 ++ c2 ++ c3, writes := writes0 ++ w2 ++ w3,
                  session := s2, outcome := .stopped }
            | .ok _ =>
                let ev3 := ev2 ++
                  [UIEvent.video mp4_path,
                   UIEvent.success ("Video saved to: " ++ mp4_path.toStr),
                   UIEvent.button "⬆️ Upload to YouTube"]
                if inp.uploadClicked then
                  let title := pyReplaceChar '_' ' ' (stem inp.uploadedName)
                  let up := youtube_uploader w o mp4_path title txVal
                  let c4 := up.2
                  match up.1 with
                  | .ok vid =>
                      { events := ev3 ++
                          [.success ("Uploaded! https://youtu.be/" ++ vid)],
                        calls := c1 ++ c2 ++ c3 ++ c4,
                        writes := writes0 ++ w2 ++ w3,
                        session := s2, outcome := .finished }
                  | .error e =>
                      { events := ev3 ++
                          [.errorMsg ("Upload failed: " ++ e.str)],
                        calls := c1 ++ c2 ++ c3 ++ c4,
                        writes := writes0 ++ w2 ++ w3,
                        session := s2, outcome := .finished }
                else
                  { events := ev3, calls := c1 ++ c2 ++ c3,
                    writes := writes0 ++ w2 ++ w3, session := s2,
                    outcome := .finished }
          else
            { events := ev2, calls := c1 ++ c2, writes := writes0 ++ w2,
              session := s2, outcome := .finished }
    else
      let evF := ev0 ++
        [UIEvent.errorMsg
          ("Transcription failed: " ++ pyShowOpt s1.transcriptionError),
         UIEvent.button "Retry Transcription"]
      let s2c2 :=
        if inp.retryClicked then do_transcription o origPath s1 else (s1, [])
      { events := evF, calls := c1 ++ s2c2.2, writes := writes0,
        session := s2c2.1, outcome := .stopped }

/-! ### Concrete fixtures (mocked collaborator responses) -/

/-- A mocked collaborator bundle where every external call succeeds. -/
def mockO : Oracles :=
  { whisper := .ok " hello world ",
    imageGen := fun _ _ => .ok "B64",
    b64decode := fun s => "dec:" ++ s,
    ffmpegExit := 0,
    ffmpegOut := "VID",
    uploadResp := .ok ⟨"abc123"⟩ }

/-- A machine where every environment prerequisite holds. -/
def mockW : World :=
  { openaiKeySet := true, ffmpegExists := true, tokenExists := true,
    time := 42 }

/-- A user interaction that drives the pipeline to completion. -/
def mockI : Inputs :=
  { uploaded := true, uploadedName := "my_clip.wav", uploadedBytes := "AUD",
    sess := {}, retryClicked := false, renderClicked := true,
    uploadClicked := true, txEdited := none }

/-- The thumbnail paths produced by `generate_thumbnails` under `mockO`
and `mockW`. -/
def mockThumbs : List FPath :=
  [⟨Dir.tmpRoot, "thumb_42_0.png"⟩, ⟨Dir.tmpRoot, "thumb_42_1.png"⟩,
   ⟨Dir.tmpRoot, "thumb_42_2.png"⟩]

/-- The image-API calls made by `generate_thumbnails mockO mockW "p" 3`. -/
def mockThumbCalls : List ExtCall :=
  [.imageGen 0 "p", .imageGen 1 "p", .imageGen 2 "p"]

/-- The file writes made by `generate_thumbnails mockO mockW "p" 3`. -/
def mockThumbWrites : List (FPath × String) :=
  [(⟨Dir.tmpRoot, "thumb_42_0.png"⟩, "dec:B64"),
   (⟨Dir.tmpRoot, "thumb_42_1.png"⟩, "dec:B64"),
   (⟨Dir.tmpRoot, "thumb_42_2.png"⟩, "dec:B64")]

/-- The image-API calls made when the prompt is `"hello world"` (the
trimmed mock transcript). -/
def mockThumbCallsHW : List ExtCall :=
  [.imageGen 0 "hello world", .imageGen 1 "hello world",
   .imageGen 2 "hello world"]

/-- The insert-request body produced by the mocked full run. -/
def mockBody : Body :=
  ⟨⟨"my clip", "hello world", ["audio2yt", "ollama", "Whisper"], "28"⟩,
   ⟨"public"⟩⟩

/-- A collaborator bundle whose image-generation call raises. -/
def failImgO : Oracles :=
  { mockO with imageGen := fun _ _ => .error ⟨"image API down"⟩ }

/-- A collaborator bundle whose transcription call raises. -/
def failWhisperO : Oracles :=
  { mockO with whisper := .error ⟨"whisper down"⟩ }

/-! ### Helper lemmas about the step functions -/

theorem do_transcription_calls (o : Oracles) (wav : FPath) (s : Session) :
    (do_transcription o wav s).2 = [.transcribe wav] := by
  unfold do_transcription transcribe_with_local_whisper
  cases o.whisper <;> rfl

theorem do_transcription_tx (o : Oracles) (wav : FPath) (s : Session) :
    (do_transcription o wav s).1.tx = s.tx := by
  unfold do_transcription transcribe_with_local_whisper
  cases o.whisper <;> rfl

theorem genThumbsGo_calls_kind (o : Oracles) (w : World) (prompt : String) :
    ∀ k i, ∀ c ∈ (genThumbsGo o w prompt i k).2.1, c.stepKind = 1 := by
  intro k
  induction k with
  | zero => intro i c hc; simp [genThumbsGo] at hc
  | succ k ih =>
      intro i c hc
      unfold genThumbsGo at hc
      cases hg : o.imageGen i prompt with
      | error e => simp [hg] at hc; subst hc; rfl
      | ok b64 =>
          simp [hg] at hc
          rcases hc with hc | hc
          · subst hc; rfl
          · exact ih (i + 1) c hc

theorem genThumbsGo_writes_tmp (o : Oracles) (w : World) (prompt : String) :
    ∀ k i, ∀ pb ∈ (genThumbsGo o w prompt i k).2.2,
      (pb : FPath × String).1.dir = Dir.tmpRoot := by
  intro k
  induction k with
  | zero => intro i pb h; simp [genThumbsGo] at h
  | succ k ih =>
      intro i pb h
      unfold genThumbsGo at h
      cases hg : o.imageGen i prompt with
      | error e => simp [hg] at h
      | ok b64 =>
          simp [hg] at h
          rcases h with h | h
          · subst h; rfl
          · exact ih (i + 1) pb h

theorem genThumbsGo_ok (o : Oracles) (w : World) (prompt : String) :
    ∀ k i imgs, (genThumbsGo o w prompt i k).1 = .ok imgs →
      imgs = (List.range' i k).map
          (fun j => (⟨Dir.tmpRoot, thumbName w.time j⟩ : FPath)) ∧
      ∀ p ∈ imgs, ∃ b, (p, b) ∈ (genThumbsGo o w prompt i k).2.2 := by
  intro k
  induction k with
  | zero =>
      intro i imgs h
      simp [genThumbsGo] at h
      subst h
      simp
  | succ k ih =>
      intro i imgs h
      unfold genThumbsGo at h ⊢
      cases hg : o.imageGen i prompt with
      | error e => rw [hg] at h; exact absurd h (by simp)
      | ok b64 =>
          rw [hg] at h
          simp only at h
          cases hr : (genThumbsGo o w prompt (i + 1) k).1 with
          | error e => rw [hr] at h; exact absurd h (by simp [Except.map])
          | ok ps =>
              rw [hr] at h
              simp only [Except.map] at h
              obtain ⟨rfl⟩ := Except.ok.inj h
              obtain ⟨hps, hmem⟩ := ih (i + 1) ps hr
              constructor
              · rw [List.range'_succ, List.map_cons, ← hps]
              · intro p hp
                simp only [hg, List.mem_cons] at hp ⊢
                rcases hp with rfl | hp
                · exact ⟨o.b64decode b64, Or.inl rfl⟩
                · obtain ⟨b, hb⟩ := hmem p hp
                  exact ⟨b, Or.inr hb⟩

theorem youtube_uploader_calls_kind (w : World) (o : Oracles) (mp4 : FPath)
    (title desc : String) :
    ∀ c ∈ (youtube_uploader w o mp4 title desc).2, c.stepKind = 3 := by
  intro c hc
  unfold youtube_uploader at hc
  cases htok : w.tokenExists with
  | false => simp [htok] at hc
  | true =>
      simp [htok] at hc
      rcases hc with rfl | rfl | rfl <;> rfl

theorem youtube_uploader_body (w : World) (o : Oracles) (mp4 : FPath)
    (title desc : String) (body : Body) (m : FPath)
    (hmem : ExtCall.uploadInsert body m ∈
      (youtube_uploader w o mp4 title desc).2) :
    body = ⟨⟨title, desc, ["audio2yt", "ollama", "Whisper"], "28"⟩,
      ⟨"public"⟩⟩ ∧ m = mp4 := by
  unfold youtube_uploader at hmem
  cases htok : w.tokenExists with
  | false => simp [htok] at hmem
  | true =>
      simp [htok] at hmem
      exact ⟨hmem.1, hmem.2⟩

theorem build_video_calls (o : Oracles) (a i out : FPath) :
    (build_video o a i out).2.1 = [.ffmpegRun a i out] := rfl

theorem build_video_ok (o : Oracles) (a i out : FPath) (v : Unit)
    (h : (build_video o a i out).1 = .ok v) : o.ffmpegExit = 0 := by
  by_cases hz : o.ffmpegExit = 0
  · exact hz
  · simp [build_video, subprocessRun, hz] at h

theorem kinds_sorted_const {l : List ExtCall} {v : Nat}
    (h : ∀ x ∈ l, x.stepKind = v) :
    (l.map ExtCall.stepKind).Sorted (· ≤ ·) := by
  induction l with
  | nil => exact List.Pairwise.nil
  | cons x xs ih =>
      refine List.Pairwise.cons ?_ (ih (fun y hy => h y (List.mem_cons_of_mem x hy)))
      intro y hy
      obtain ⟨z, hz, rfl⟩ := List.mem_map.mp hy
      rw [h x (List.mem_cons_self x xs), h z (List.mem_cons_of_mem x hz)]

theorem kinds_sorted_append {l1 l2 : List ExtCall} {v : Nat}
    (h1 : (l1.map ExtCall.stepKind).Sorted (· ≤ ·))
    (hub : ∀ x ∈ l1, x.stepKind ≤ v)
    (hlb : ∀ y ∈ l2, v ≤ y.stepKind)
    (h2 : (l2.map ExtCall.stepKind).Sorted (· ≤ ·)) :
    ((l1 ++ l2).map ExtCall.stepKind).Sorted (· ≤ ·) := by
  rw [List.map_append]
  refine (List.pairwise_append).mpr ⟨h1, h2, ?_⟩
  intro a ha b hb
  obtain ⟨x, hx, rfl⟩ := List.mem_map.mp ha
  obtain ⟨y, hy, rfl⟩ := List.mem_map.mp hb
  exact le_trans (hub x hx) (hlb y hy)

theorem kinds_le_append {l1 l2 : List ExtCall} {v : Nat}
    (h1 : ∀ x ∈ l1, x.stepKind ≤ v) (h2 : ∀ x ∈ l2, x.stepKind ≤ v) :
    ∀ x ∈ l1 ++ l2, x.stepKind ≤ v := by
  intro x hx
  rcases List.mem_append.mp hx with h | h
  exacts [h1 x h, h2 x h]

theorem le_of_kinds_const {l : List ExtCall} {a v : Nat}
    (h : ∀ x ∈ l, x.stepKind = a) (hav : a ≤ v) :
    ∀ x ∈ l, x.stepKind ≤ v := by
  intro x hx; rw [h x hx]; exact hav

theorem ge_of_kinds_const {l : List ExtCall} {a v : Nat}
    (h : ∀ x ∈ l, x.stepKind = a) (hav : v ≤ a) :
    ∀ x ∈ l, v ≤ x.stepKind := by
  intro x hx; rw [h x hx]; exact hav

theorem not_mem_of_kind {x : ExtCall} {l : List ExtCall} {v : Nat}
    (hk : ∀ c ∈ l, c.stepKind = v) (hx : x.stepKind ≠ v) : x ∉ l := by
  intro h
  exact hx (hk x h)

theorem runScript_kinds_sorted (inp : Inputs) (w : World) (o : Oracles) :
    ((runScript inp w o).calls.map ExtCall.stepKind).Sorted (· ≤ ·) := by
  unfold runScript
  cases hkey : w.openaiKeySet with
  | false => simp
  | true =>
  cases hff : w.ffmpegExists with
  | false => simp
  | true =>
  cases hup : inp.uploaded with
  | false => simp
  | true =>
  simp only [Bool.not_true, Bool.false_eq_true, if_false, if_true]
  generalize hS : (if (inp.sess.transcript.isNone &&
        inp.sess.transcriptionError.isNone) = true then
      do_transcription o ⟨Dir.tmpRoot, inp.uploadedName⟩ inp.sess
    else (inp.sess, ([] : List ExtCall))) = s1c1
  have hS0 : ∀ c ∈ s1c1.2, c.stepKind = 0 := by
    intro c hc
    rw [← hS] at hc
    split at hc
    · rw [do_transcription_calls] at hc
      simp at hc
      subst hc
      rfl
    · simp at hc
  generalize hG : generate_thumbnails o w
      (pyTake (pyShowOpt s1c1.1.transcript) 200) 3 = gt
  have hG1 : ∀ c ∈ gt.2.1, c.stepKind = 1 := by
    intro c hc
    rw [← hG] at hc
    exact genThumbsGo_calls_kind o w _ 3 0 c hc
  have hB2 : ∀ (a b c : FPath) (x : ExtCall), x ∈ (build_video o a b c).2.1 →
      x.stepKind = 2 := by
    intro a b c x hx
    rw [build_video_calls] at hx
    simp at hx
    subst hx
    rfl
  split
  · -- truthy transcript
    split
    · -- image generation raised
      exact kinds_sorted_append (v := 1) (kinds_sorted_const hS0)
        (le_of_kinds_const hS0 (by norm_num))
        (ge_of_kinds_const hG1 (by norm_num)) (kinds_sorted_const hG1)
    · -- thumbs ok
      split
      · -- render clicked
        split
        · -- ffmpeg raised
          exact kinds_sorted_append (v := 2)
            (kinds_sorted_append (v := 1) (kinds_sorted_const hS0)
              (le_of_kinds_const hS0 (by norm_num))
              (ge_of_kinds_const hG1 (by norm_num)) (kinds_sorted_const hG1))
            (kinds_le_append (le_of_kinds_const hS0 (by norm_num))
              (le_of_kinds_const hG1 (by norm_num)))
            (ge_of_kinds_const (hB2 _ _ _) (by norm_num))
            (kinds_sorted_const (hB2 _ _ _))
        · -- ffmpeg ok
          split
          · -- upload clicked
            split
            all_goals
              exact kinds_sorted_append (v := 3)
                (kinds_sorted_append (v := 2)
                  (kinds_sorted_append (v := 1) (kinds_sorted_const hS0)
                    (le_of_kinds_const hS0 (by norm_num))
                    (ge_of_kinds_const hG1 (by norm_num))
                    (kinds_sorted_const hG1))
                  (kinds_le_append (le_of_kinds_const hS0 (by norm_num))
                    (le_of_kinds_const hG1 (by norm_num)))
                  (ge_of_kinds_const (hB2 _ _ _) (by norm_num))
                  (kinds_sorted_const (hB2 _ _ _)))
                (kinds_le_append
                  (kinds_le_append (le_of_kinds_const hS0 (by norm_num))
                    (le_of_kinds_const hG1 (by norm_num)))
                  (le_of_kinds_const (hB2 _ _ _) (by norm_num)))
                (ge_of_kinds_const (youtube_uploader_calls_kind _ _ _ _ _)
                  (by norm_num))
                (kinds_sorted_const (youtube_uploader_calls_kind _ _ _ _ _))
          · -- upload not clicked
            exact kinds_sorted_append (v := 2)
              (kinds_sorted_append (v := 1) (kinds_sorted_const hS0)
                (le_of_kinds_const hS0 (by norm_num))
                (ge_of_kinds_const hG1 (by norm_num)) (kinds_sorted_const hG1))
              (kinds_le_append (le_of_kinds_const hS0 (by norm_num))
                (le_of_kinds_const hG1 (by norm_num)))
              (ge_of_kinds_const (hB2 _ _ _) (by norm_num))
              (kinds_sorted_const (hB2 _ _ _))
      · -- render not clicked
        exact kinds_sorted_append (v := 1) (kinds_sorted_const hS0)
          (le_of_kinds_const hS0 (by norm_num))
          (ge_of_kinds_const hG1 (by norm_num)) (kinds_sorted_const hG1)
  · -- transcription failed
    split
    · exact kinds_sorted_append (v := 0) (kinds_sorted_const hS0)
        (le_of_kinds_const hS0 (by norm_num))
        (ge_of_kinds_const (fun c hc => by
          rw [do_transcription_calls] at hc
          simp at hc
          subst hc
          rfl) (by norm_num))
        (kinds_sorted_const (fun c hc => by
          rw [do_transcription_calls] at hc
          simp at hc
          subst hc
          rfl))
    · simp only [List.append_nil]
      exact kinds_sorted_const hS0

theorem runScript_upload_after_build (inp : Inputs) (w : World) (o : Oracles)
    (body : Body) (m : FPath)
    (hmem : ExtCall.uploadInsert body m ∈ (runScript inp w o).calls) :
    o.ffmpegExit = 0 ∧
    ∃ a i out, ExtCall.ffmpegRun a i out ∈ (runScript inp w o).calls := by
  unfold runScript at hmem ⊢
  cases hkey : w.openaiKeySet with
  | false => rw [hkey] at hmem; simp at hmem
  | true =>
  cases hff : w.ffmpegExists with
  | false => rw [hkey, hff] at hmem; simp at hmem
  | true =>
  cases hup : inp.uploaded with
  | false => rw [hkey, hff, hup] at hmem; simp at hmem
  | true =>
  simp only [hkey, hff, hup, Bool.not_true, Bool.false_eq_true, if_false,
    if_true] at hmem ⊢
  generalize hS : (if (inp.sess.transcript.isNone &&
        inp.sess.transcriptionError.isNone) = true then
      do_transcription o ⟨Dir.tmpRoot, inp.uploadedName⟩ inp.sess
    else (inp.sess, ([] : List ExtCall))) = s1c1 at hmem ⊢
  have hS0 : ∀ c ∈ s1c1.2, c.stepKind = 0 := by
    intro c hc
    rw [← hS] at hc
    split at hc
    · rw [do_transcription_calls] at hc
      simp at hc
      subst hc
      rfl
    · simp at hc
  generalize hG : generate_thumbnails o w
      (pyTake (pyShowOpt s1c1.1.transcript) 200) 3 = gt at hmem ⊢
  have hG1 : ∀ c ∈ gt.2.1, c.stepKind = 1 := by
    intro c hc
    rw [← hG] at hc
    exact genThumbsGo_calls_kind o w _ 3 0 c hc
  by_cases htr : truthyStr s1c1.1.transcript = true
  · simp only [htr, if_true] at hmem ⊢
    cases hgt : gt.1 with
    | error e =>
        simp only [hgt] at hmem
        rcases List.mem_append.mp hmem with h | h
        · exact absurd h (not_mem_of_kind hS0 (by simp [ExtCall.stepKind]))
        · exact absurd h (not_mem_of_kind hG1 (by simp [ExtCall.stepKind]))
    | ok thumbs =>
        simp only [hgt] at hmem ⊢
        cases hrc : inp.renderClicked with
        | false =>
            simp only [hrc, Bool.false_eq_true, if_false] at hmem
            rcases List.mem_append.mp hmem with h | h
            · exact absurd h (not_mem_of_kind hS0 (by simp [ExtCall.stepKind]))
            · exact absurd h (not_mem_of_kind hG1 (by simp [ExtCall.stepKind]))
        | true =>
            simp only [hrc, if_true] at hmem ⊢
            generalize hBV : build_video o ⟨Dir.tmpRoot, inp.uploadedName⟩
                (thumbs.getD (chooseIdx thumbs.length) ⟨Dir.tmpRoot, ""⟩)
                ⟨Dir.cwd, stem inp.uploadedName ++ ".mp4"⟩ = bv at hmem ⊢
            have hB2 : ∀ c ∈ bv.2.1, c.stepKind = 2 := by
              intro c hc
              rw [← hBV, build_video_calls] at hc
              simp at hc
              subst hc
              rfl
            cases hbv : bv.1 with
            | error e =>
                simp only [hbv] at hmem
                rcases List.mem_append.mp hmem with h | h
                · rcases List.mem_append.mp h with h | h
                  · exact absurd h (not_mem_of_kind hS0 (by simp [ExtCall.stepKind]))
                  · exact absurd h (not_mem_of_kind hG1 (by simp [ExtCall.stepKind]))
                · exact absurd h (not_mem_of_kind hB2 (by simp [ExtCall.stepKind]))
            | ok v =>
                have hz : o.ffmpegExit = 0 := by
                  apply build_video_ok o _ _ _ v
                  rw [hBV, hbv]
                refine ⟨hz, ?_⟩
                simp only [hbv] at hmem ⊢
                cases hupc : inp.uploadClicked with
                | false =>
                    simp only [hupc, Bool.false_eq_true, if_false] at hmem
                    rcases List.mem_append.mp hmem with h | h
                    · rcases List.mem_append.mp h with h | h
                      · exact absurd h (not_mem_of_kind hS0 (by simp [ExtCall.stepKind]))
                      · exact absurd h (not_mem_of_kind hG1 (by simp [ExtCall.stepKind]))
                    · exact absurd h (not_mem_of_kind hB2 (by simp [ExtCall.stepKind]))
                | true =>
                    simp only [hupc, if_true] at hmem ⊢
                    generalize hU : youtube_uploader w o
                        ⟨Dir.cwd, stem inp.uploadedName ++ ".mp4"⟩
                        (pyReplaceChar '_' ' ' (stem inp.uploadedName))
                        (inp.txEdited.getD (pyShowOpt s1c1.1.transcript)) =
                      up at hmem ⊢
                    cases hu1 : up.1 with
                    | ok vid =>
                        simp only [hu1] at hmem ⊢
                        refine ⟨⟨Dir.tmpRoot, inp.uploadedName⟩,
                          thumbs.getD (chooseIdx thumbs.length) ⟨Dir.tmpRoot, ""⟩,
                          ⟨Dir.cwd, stem inp.uploadedName ++ ".mp4"⟩, ?_⟩
                        have : ExtCall.ffmpegRun ⟨Dir.tmpRoot, inp.uploadedName⟩
                            (thumbs.getD (chooseIdx thumbs.length) ⟨Dir.tmpRoot, ""⟩)
                            ⟨Dir.cwd, stem inp.uploadedName ++ ".mp4"⟩ ∈ bv.2.1 := by
                          rw [← hBV, build_video_calls]
                          exact List.mem_singleton.mpr rfl
                        exact List.mem_append_left _ (List.mem_append_right _ this)
                    | error e =>
                        simp only [hu1] at hmem ⊢
                        refine ⟨⟨Dir.tmpRoot, inp.uploadedName⟩,
                          thumbs.getD (chooseIdx thumbs.length) ⟨Dir.tmpRoot, ""⟩,
                          ⟨Dir.cwd, stem inp.uploadedName ++ ".mp4"⟩, ?_⟩
                        have : ExtCall.ffmpegRun ⟨Dir.tmpRoot, inp.uploadedName⟩
                            (thumbs.getD (chooseIdx thumbs.length) ⟨Dir.tmpRoot, ""⟩)
                            ⟨Dir.cwd, stem inp.uploadedName ++ ".mp4"⟩ ∈ bv.2.1 := by
                          rw [← hBV, build_video_calls]
                          exact List.mem_singleton.mpr rfl
                        exact List.mem_append_left _ (List.mem_append_right _ this)
  · simp only [htr, if_false] at hmem
    cases hre : inp.retryClicked with
    | true =>
        simp only [hre, if_true] at hmem
        rcases List.mem_append.mp hmem with h | h
        · exact absurd h (not_mem_of_kind hS0 (by simp [ExtCall.stepKind]))
        · rw [do_transcription_calls] at h
          simp at h
    | false =>
        simp only [hre, Bool.false_eq_true, if_false] at hmem
        rcases List.mem_append.mp hmem with h | h
        · exact absurd h (not_mem_of_kind hS0 (by simp [ExtCall.stepKind]))
        · simp at h

theorem runScript_imageGen_transcript (inp : Inputs) (w : World)
    (o : Oracles) (i : Nat) (p : String)
    (hmem : ExtCall.imageGen i p ∈ (runScript inp w o).calls) :
    truthyStr (runScript inp w o).session.transcript = true := by
  unfold runScript at hmem ⊢
  cases hkey : w.openaiKeySet with
  | false => rw [hkey] at hmem; simp at hmem
  | true =>
  cases hff : w.ffmpegExists with
  | false => rw [hkey, hff] at hmem; simp at hmem
  | true =>
  cases hup : inp.uploaded with
  | false => rw [hkey, hff, hup] at hmem; simp at hmem
  | true =>
  simp only [hkey, hff, hup, Bool.not_true, Bool.false_eq_true, if_false,
    if_true] at hmem ⊢
  generalize hS : (if (inp.sess.transcript.isNone &&
        inp.sess.transcriptionError.isNone) = true then
      do_transcription o ⟨Dir.tmpRoot, inp.uploadedName⟩ inp.sess
    else (inp.sess, ([] : List ExtCall))) = s1c1 at hmem ⊢
  have hS0 : ∀ c ∈ s1c1.2, c.stepKind = 0 := by
    intro c hc
    rw [← hS] at hc
    split at hc
    · rw [do_transcription_calls] at hc
      simp at hc
      subst hc
      rfl
    · simp at hc
  generalize hG : generate_thumbnails o w
      (pyTake (pyShowOpt s1c1.1.transcript) 200) 3 = gt at hmem ⊢
  by_cases htr : truthyStr s1c1.1.transcript = true
  · simp only [htr, if_true] at hmem ⊢
    clear hmem
    cases hgt : gt.1 with
    | error e => simpa only [hgt] using htr
    | ok thumbs =>
        simp only [hgt]
        split
        · split
          · simpa using htr
          · split
            · split
              · simpa using htr
              · simpa using htr
            · simpa using htr
        · simpa using htr
  · simp only [htr, if_false] at hmem
    cases hre : inp.retryClicked with
    | true =>
        simp only [hre, if_true] at hmem
        rcases List.mem_append.mp hmem with h | h
        · exact absurd h (not_mem_of_kind hS0 (by simp [ExtCall.stepKind]))
        · rw [do_transcription_calls] at h
          simp at h
    | false =>
        simp only [hre, Bool.false_eq_true, if_false] at hmem
        rcases List.mem_append.mp hmem with h | h
        · exact absurd h (not_mem_of_kind hS0 (by simp [ExtCall.stepKind]))
        · simp at h

theorem runScript_upload_body (inp : Inputs) (w : World) (o : Oracles)
    (body : Body) (m : FPath)
    (hmem : ExtCall.uploadInsert body m ∈ (runScript inp w o).calls) :
    body.snippet.title = pyReplaceChar '_' ' ' (stem inp.uploadedName) ∧
    body.snippet.tags = ["audio2yt", "ollama", "Whisper"] ∧
    body.snippet.categoryId = "28" ∧
    body.status.privacyStatus = "public" := by
  unfold runScript at hmem
  cases hkey : w.openaiKeySet with
  | false => simp [hkey] at hmem
  | true =>
  cases hff : w.ffmpegExists with
  | false => simp [hkey, hff] at hmem
  | true =>
  cases hup : inp.uploaded with
  | false => simp [hkey, hff, hup] at hmem
  | true =>
  simp only [hkey, hff, hup, Bool.not_true, Bool.false_eq_true, if_false,
    if_true] at hmem
  generalize hS : (if (inp.sess.transcript.isNone &&
        inp.sess.transcriptionError.isNone) = true then
      do_transcription o ⟨Dir.tmpRoot, inp.uploadedName⟩ inp.sess
    else (inp.sess, ([] : List ExtCall))) = s1c1 at hmem
  have hS0 : ∀ c ∈ s1c1.2, c.stepKind = 0 := by
    intro c hc
    rw [← hS] at hc
    split at hc
    · rw [do_transcription_calls] at hc
      simp at hc
      subst hc
      rfl
    · simp at hc
  generalize hG : generate_thumbnails o w
      (pyTake (pyShowOpt s1c1.1.transcript) 200) 3 = gt at hmem
  have hG1 : ∀ c ∈ gt.2.1, c.stepKind = 1 := by
    intro c hc
    rw [← hG] at hc
    exact genThumbsGo_calls_kind o w _ 3 0 c hc
  split at hmem
  · -- truthy transcript: pipeline continues
    split at hmem
    · -- image generation failed: calls = s1c1.2 ++ gt.2.1
      simp only [List.mem_append] at hmem
      rcases hmem with h | h
      · have := hS0 _ h; simp [ExtCall.stepKind] at this
      · have := hG1 _ h; simp [ExtCall.stepKind] at this
    · -- thumbs ok
      split at hmem
      · -- render clicked
        split at hmem
        · -- ffmpeg failed
          simp only [List.mem_append] at hmem
          rcases hmem with (h | h) | h
          · have := hS0 _ h; simp [ExtCall.stepKind] at this
          · have := hG1 _ h; simp [ExtCall.stepKind] at this
          · simp [build_video] at h
        · -- ffmpeg ok
          split at hmem
          · -- upload clicked
            split at hmem
            all_goals
              simp only [List.mem_append] at hmem
              rcases hmem with ((h | h) | h) | h
              · have := hS0 _ h; simp [ExtCall.stepKind] at this
              · have := hG1 _ h; simp [ExtCall.stepKind] at this
              · simp [build_video] at h
              · have := youtube_uploader_body _ _ _ _ _ _ _ h
                rw [this.1]
                exact ⟨rfl, rfl, rfl, rfl⟩
          · -- upload not clicked
            simp only [List.mem_append] at hmem
            rcases hmem with (h | h) | h
            · have := hS0 _ h; simp [ExtCall.stepKind] at this
            · have := hG1 _ h; simp [ExtCall.stepKind] at this
            · simp [build_video] at h
      · -- render not clicked
        simp only [List.mem_append] at hmem
        rcases hmem with h | h
        · have := hS0 _ h; simp [ExtCall.stepKind] at this
        · have := hG1 _ h; simp [ExtCall.stepKind] at this
  · -- transcription failed branch: calls = s1c1.2 ++ retry calls
    split at hmem
    next hretry =>
      simp only [List.mem_append] at hmem
      rcases hmem with h | h
      · have := hS0 _ h; simp [ExtCall.stepKind] at this
      · rw [do_transcription_calls] at h
        simp at h
    next hretry =>
      simp only [List.mem_append] at hmem
      rcases hmem with h | h
      · have := hS0 _ h; simp [ExtCall.stepKind] at this
      · simp at h

/-! ### Claims -/

/-- C3: the external calls of every run happen in the fixed order
transcription, thumbnail generation, video build, upload; the upload call
only happens when the video build completed successfully (exit status 0),
and thumbnail generation only happens when a transcript exists. -/
theorem C3_external_call_order (inp : Inputs) (w : World) (o : Oracles) :
    ((runScript inp w o).calls.map ExtCall.stepKind).Sorted (· ≤ ·) ∧
    (∀ body m, ExtCall.uploadInsert body m ∈ (runScript inp w o).calls →
      o.ffmpegExit = 0 ∧
      ∃ a i out, ExtCall.ffmpegRun a i out ∈ (runScript inp w o).calls) ∧
    (∀ i p, ExtCall.imageGen i p ∈ (runScript inp w o).calls →
      truthyStr (runScript inp w o).session.transcript = true) :=
  ⟨runScript_kinds_sorted inp w o,
   fun body m h => runScript_upload_after_build inp w o body m h,
   fun i p h => runScript_imageGen_transcript inp w o i p h⟩

/-- Witness for C3: in the mocked full run an image-generation call
happens and indeed a transcript exists. -/
theorem C3_external_call_order_witness :
    truthyStr (runScript mockI mockW mockO).session.transcript = true :=
  (C3_external_call_order mockI mockW mockO).2.2 0 "hello world" (by decide)

/-- C10: the upload request body is fixed except for title and
description (tags, categoryId 28, privacyStatus public), and the title
used at the call site is the audio filename stem with underscores
replaced by spaces. -/
theorem C10_upload_request_fixed :
    (∀ (w : World) (o : Oracles) (mp4 : FPath) (title desc : String)
        (body : Body) (m : FPath),
      ExtCall.uploadInsert body m ∈ (youtube_uploader w o mp4 title desc).2 →
      body = ⟨⟨title, desc, ["audio2yt", "ollama", "Whisper"], "28"⟩,
        ⟨"public"⟩⟩) ∧
    (∀ (inp : Inputs) (w : World) (o : Oracles) (body : Body) (m : FPath),
      ExtCall.uploadInsert body m ∈ (runScript inp w o).calls →
      body.snippet.title = pyReplaceChar '_' ' ' (stem inp.uploadedName) ∧
      body.snippet.tags = ["audio2yt", "ollama", "Whisper"] ∧
      body.snippet.categoryId = "28" ∧
      body.status.privacyStatus = "public") :=
  ⟨fun w o mp4 title desc body m h =>
      (youtube_uploader_body w o mp4 title desc body m h).1,
   fun inp w o body m h => runScript_upload_body inp w o body m h⟩

/-- Witness for C10: the insert request of the mocked full run carries the
fixed body fields and the underscore-to-space title. -/
theorem C10_upload_request_fixed_witness :
    mockBody.snippet.title = pyReplaceChar '_' ' ' (stem mockI.uploadedName) ∧
    mockBody.snippet.tags = ["audio2yt", "ollama", "Whisper"] ∧
    mockBody.snippet.categoryId = "28" ∧
    mockBody.status.privacyStatus = "public" :=
  C10_upload_request_fixed.2 mockI mockW mockO mockBody
    ⟨Dir.cwd, "my_clip.mp4"⟩ (by decide)

/-- C9: after every call of `do_transcription`, exactly one of the session
variables `transcript` and `transcription_error` is non-None: success
stores the transcript and clears the error, failure stores the error
string and clears the transcript. -/
theorem C9_transcription_xor (o : Oracles) (wav : FPath) (s : Session) :
    ((do_transcription o wav s).1.transcript ≠ none ∧
       (do_transcription o wav s).1.transcriptionError = none) ∨
    ((do_transcription o wav s).1.transcript = none ∧
       (do_transcription o wav s).1.transcriptionError ≠ none) := by
  unfold do_transcription transcribe_with_local_whisper
  cases o.whisper with
  | ok t => exact Or.inl ⟨by simp, rfl⟩
  | error e => exact Or.inr ⟨rfl, by simp⟩

/-- C7: `build_video` raises `subprocess.CalledProcessError` exactly when
the FFmpeg invocation exits with a nonzero status, returns normally (with
the output MP4 written at the given path) exactly when it exits with
status zero, and raises nothing but that propagated exception. -/
theorem C7_build_video_check (o : Oracles) (audio image out : FPath) :
    ((build_video o audio image out).1 =
        .error (.calledProcessError o.ffmpegExit (ffmpegCmd audio image out))
      ↔ o.ffmpegExit ≠ 0) ∧
    ((build_video o audio image out).1 = .ok () ↔ o.ffmpegExit = 0) ∧
    (o.ffmpegExit = 0 →
      (build_video o audio image out).2.2 = [(out, o.ffmpegOut)]) ∧
    (∀ e, (build_video o audio image out).1 = .error e →
      e = .calledProcessError o.ffmpegExit (ffmpegCmd audio image out)) := by
  unfold build_video subprocessRun
  by_cases h : o.ffmpegExit = 0 <;> simp [h]

/-- Witness for C7: with a zero exit status the build returns normally and
the MP4 write is recorded. -/
theorem C7_build_video_check_witness :
    (build_video mockO ⟨Dir.tmpRoot, "a.wav"⟩ ⟨Dir.tmpRoot, "t.png"⟩
        ⟨Dir.cwd, "a.mp4"⟩).2.2 = [(⟨Dir.cwd, "a.mp4"⟩, "VID")] :=
  (C7_build_video_check mockO ⟨Dir.tmpRoot, "a.wav"⟩ ⟨Dir.tmpRoot, "t.png"⟩
    ⟨Dir.cwd, "a.mp4"⟩).2.2.1 rfl

/-- C6: `youtube_uploader` raises `RuntimeError` if and only if the OAuth
token file is missing, the message is the fixed one, and in that case no
credential read, client construction, or upload request happens. -/
theorem C6_uploader_token_guard (w : World) (o : Oracles) (mp4 : FPath)
    (title desc : String) :
    ((∃ m, (youtube_uploader w o mp4 title desc).1 =
        .error (.runtimeError m)) ↔ w.tokenExists = false) ∧
    (∀ m, (youtube_uploader w o mp4 title desc).1 =
        .error (.runtimeError m) → m = tokenMissingMsg) ∧
    (w.tokenExists = false →
      (youtube_uploader w o mp4 title desc).2 = []) := by
  unfold youtube_uploader
  cases htok : w.tokenExists with
  | false => simp
  | true => cases o.uploadResp <;> simp [Except.map, Except.mapError]

/-- Witness for C6: with the token file missing, the uploader makes no
external call at all. -/
theorem C6_uploader_token_guard_witness :
    (youtube_uploader { mockW with tokenExists := false } mockO
        ⟨Dir.cwd, "a.mp4"⟩ "t" "d").2 = [] :=
  (C6_uploader_token_guard { mockW with tokenExists := false } mockO
    ⟨Dir.cwd, "a.mp4"⟩ "t" "d").2.2 rfl

/-- C8: a successful call of `generate_thumbnails` with count `n` returns
a list of exactly `n` generated image paths, one per loop iteration, each
under the temporary root and each written before the list is returned. -/
theorem C8_generate_thumbnails_count (o : Oracles) (w : World)
    (prompt : String) (count : Nat) (imgs : List FPath) (cs : List ExtCall)
    (ws : List (FPath × String))
    (h : generate_thumbnails o w prompt count = (.ok imgs, cs, ws)) :
    imgs.length = count ∧
    imgs = (List.range count).map
      (fun i => (⟨Dir.tmpRoot, thumbName w.time i⟩ : FPath)) ∧
    ∀ p ∈ imgs, p.dir = Dir.tmpRoot ∧ ∃ b, (p, b) ∈ ws := by
  have h1 : (genThumbsGo o w prompt 0 count).1 = .ok imgs := by
    rw [generate_thumbnails] at h
    rw [h]
  obtain ⟨hform, hmem⟩ := genThumbsGo_ok o w prompt count 0 imgs h1
  have hws : (genThumbsGo o w prompt 0 count).2.2 = ws := by
    rw [generate_thumbnails] at h
    rw [h]
  refine ⟨?_, ?_, ?_⟩
  · rw [hform, List.length_map, List.length_range']
  · rw [hform, List.range_eq_range']
  · intro p hp
    refine ⟨?_, ?_⟩
    · rw [hform] at hp
      obtain ⟨j, _, rfl⟩ := List.mem_map.mp hp
      rfl
    · obtain ⟨b, hb⟩ := hmem p hp
      exact ⟨b, hws ▸ hb⟩

/-- Witness for C8: the mocked run returns exactly three thumbnail
paths. -/
theorem C8_generate_thumbnails_count_witness : mockThumbs.length = 3 :=
  (C8_generate_thumbnails_count mockO mockW "p" 3 mockThumbs mockThumbCalls
    mockThumbWrites rfl).1

theorem runScript_transcription_error_surfaced (inp : Inputs) (w : World)
    (o : Oracles) (e : ExtErr)
    (hkey : w.openaiKeySet = true) (hff : w.ffmpegExists = true)
    (hup : inp.uploaded = true)
    (hsT : inp.sess.transcript = none)
    (hsE : inp.sess.transcriptionError = none)
    (hw : o.whisper = .error e) :
    UIEvent.errorMsg ("Transcription failed: " ++ e.msg) ∈
      (runScript inp w o).events ∧
    UIEvent.button "Retry Transcription" ∈ (runScript inp w o).events ∧
    (runScript inp w o).outcome = .stopped := by
  unfold runScript
  simp [hkey, hff, hup, hsT, hsE, do_transcription,
    transcribe_with_local_whisper, hw, truthyStr, pyShowOpt, PyError.str]

theorem runScript_imageGen_uncaught (inp : Inputs) (w : World) (o : Oracles)
    (t : String) (e : PyError) (cs : List ExtCall)
    (ws : List (FPath × String))
    (hkey : w.openaiKeySet = true) (hff : w.ffmpegExists = true)
    (hup : inp.uploaded = true)
    (hsT : inp.sess.transcript = none)
    (hsE : inp.sess.transcriptionError = none)
    (hw : o.whisper = .ok t) (ht : (pyStrip t).data.isEmpty = false)
    (hg : generate_thumbnails o w (pyTake (pyStrip t) 200) 3 =
      (.error e, cs, ws)) :
    (runScript inp w o).outcome = .uncaught e ∧
    (runScript inp w o).events.all (fun ev => !ev.isErrorMsg) = true := by
  unfold runScript
  simp [hkey, hff, hup, hsT, hsE, do_transcription,
    transcribe_with_local_whisper, hw, truthyStr, ht, pyShowOpt, hg,
    UIEvent.isErrorMsg]

theorem runScript_ffmpeg_error_surfaced (inp : Inputs) (w : World)
    (o : Oracles) (t : String) (thumbs : List FPath) (cs : List ExtCall)
    (ws : List (FPath × String))
    (hkey : w.openaiKeySet = true) (hff : w.ffmpegExists = true)
    (hup : inp.uploaded = true)
    (hsT : inp.sess.transcript = none)
    (hsE : inp.sess.transcriptionError = none)
    (hw : o.whisper = .ok t) (ht : (pyStrip t).data.isEmpty = false)
    (hg : generate_thumbnails o w (pyTake (pyStrip t) 200) 3 =
      (.ok thumbs, cs, ws))
    (hrc : inp.renderClicked = true) (hexit : ¬ o.ffmpegExit = 0) :
    (∃ e, UIEvent.errorMsg ("FFmpeg error: " ++ PyError.str e) ∈
      (runScript inp w o).events) ∧
    (runScript inp w o).outcome = .stopped ∧
    UIEvent.button "Retry Transcription" ∉ (runScript inp w o).events := by
  unfold runScript
  refine ⟨⟨.calledProcessError o.ffmpegExit
    (ffmpegCmd ⟨Dir.tmpRoot, inp.uploadedName⟩
      (thumbs.getD (chooseIdx thumbs.length) ⟨Dir.tmpRoot, ""⟩)
      ⟨Dir.cwd, stem inp.uploadedName ++ ".mp4"⟩), ?_⟩, ?_, ?_⟩ <;>
    simp [hkey, hff, hup, hsT, hsE, do_transcription,
      transcribe_with_local_whisper, hw, truthyStr, ht, pyShowOpt, hg, hrc,
      build_video, subprocessRun, hexit]

theorem runScript_upload_error_surfaced (inp : Inputs) (w : World)
    (o : Oracles) (t : String) (thumbs : List FPath) (cs : List ExtCall)
    (ws : List (FPath × String)) (e : PyError)
    (hkey : w.openaiKeySet = true) (hff : w.ffmpegExists = true)
    (hup : inp.uploaded = true)
    (hsT : inp.sess.transcript = none)
    (hsE : inp.sess.transcriptionError = none)
    (hw : o.whisper = .ok t) (ht : (pyStrip t).data.isEmpty = false)
    (hg : generate_thumbnails o w (pyTake (pyStrip t) 200) 3 =
      (.ok thumbs, cs, ws))
    (hrc : inp.renderClicked = true) (hexit : o.ffmpegExit = 0)
    (hupc : inp.uploadClicked = true)
    (hfail : (youtube_uploader w o
        ⟨Dir.cwd, stem inp.uploadedName ++ ".mp4"⟩
        (pyReplaceChar '_' ' ' (stem inp.uploadedName))
        (inp.txEdited.getD (pyStrip t))).1 = .error e) :
    UIEvent.errorMsg ("Upload failed: " ++ PyError.str e) ∈
      (runScript inp w o).events ∧
    (runScript inp w o).outcome = .finished ∧
    UIEvent.button "Retry Transcription" ∉ (runScript inp w o).events := by
  unfold runScript
  simp [hkey, hff, hup, hsT, hsE, do_transcription,
    transcribe_with_local_whisper, hw, truthyStr, ht, pyShowOpt, hg, hrc,
    build_video, subprocessRun, hexit, hupc, hfail]

theorem runScript_button_labels (inp : Inputs) (w : World) (o : Oracles)
    (lbl : String)
    (hmem : UIEvent.button lbl ∈ (runScript inp w o).events) :
    lbl = "Retry Transcription" ∨ lbl = "🔧 Render MP4" ∨
    lbl = "⬆️ Upload to YouTube" := by
  unfold runScript at hmem
  cases hkey : w.openaiKeySet with
  | false => rw [hkey] at hmem; simp at hmem
  | true =>
  cases hff : w.ffmpegExists with
  | false => rw [hkey, hff] at hmem; simp at hmem
  | true =>
  cases hup : inp.uploaded with
  | false => rw [hkey, hff, hup] at hmem; simp at hmem
  | true =>
  simp only [hkey, hff, hup, Bool.not_true, Bool.false_eq_true, if_false,
    if_true] at hmem
  generalize hS : (if (inp.sess.transcript.isNone &&
        inp.sess.transcriptionError.isNone) = true then
      do_transcription o ⟨Dir.tmpRoot, inp.uploadedName⟩ inp.sess
    else (inp.sess, ([] : List ExtCall))) = s1c1 at hmem
  generalize hG : generate_thumbnails o w
      (pyTake (pyShowOpt s1c1.1.transcript) 200) 3 = gt at hmem
  split at hmem
  · -- truthy transcript
    split at hmem
    · -- image generation raised
      simp at hmem
    · -- thumbs ok
      split at hmem
      · -- render clicked
        split at hmem
        · -- ffmpeg raised
          simp [List.mem_append] at hmem
          rcases hmem with ((h | h) | h) | h <;> simp_all
        · -- ffmpeg ok
          split at hmem
          · -- upload clicked
            split at hmem <;>
            · simp [List.mem_append] at hmem
              rcases hmem with (((h | h) | h) | h) | h <;> simp_all
          · simp [List.mem_append] at hmem
            rcases hmem with ((h | h) | h) | h <;> simp_all
      · -- render not clicked
        simp [List.mem_append] at hmem
        rcases hmem with (h | h) | h <;> simp_all
  · -- transcription failed branch
    simp at hmem
    simp [hmem]

theorem runScript_retry_stops (inp : Inputs) (w : World) (o : Oracles)
    (hmem : UIEvent.button "Retry Transcription" ∈ (runScript inp w o).events) :
    (runScript inp w o).outcome = .stopped ∧
    ∀ c ∈ (runScript inp w o).calls, c.stepKind = 0 := by
  unfold runScript at hmem ⊢
  cases hkey : w.openaiKeySet with
  | false => rw [hkey] at hmem; simp at hmem
  | true =>
  cases hff : w.ffmpegExists with
  | false => rw [hkey, hff] at hmem; simp at hmem
  | true =>
  cases hup : inp.uploaded with
  | false => rw [hkey, hff, hup] at hmem; simp at hmem
  | true =>
  simp only [hkey, hff, hup, Bool.not_true, Bool.false_eq_true, if_false,
    if_true] at hmem ⊢
  generalize hS : (if (inp.sess.transcript.isNone &&
        inp.sess.transcriptionError.isNone) = true then
      do_transcription o ⟨Dir.tmpRoot, inp.uploadedName⟩ inp.sess
    else (inp.sess, ([] : List ExtCall))) = s1c1 at hmem ⊢
  have hS0 : ∀ c ∈ s1c1.2, c.stepKind = 0 := by
    intro c hc
    rw [← hS] at hc
    split at hc
    · rw [do_transcription_calls] at hc
      simp at hc
      subst hc
      rfl
    · simp at hc
  generalize hG : generate_thumbnails o w
      (pyTake (pyShowOpt s1c1.1.transcript) 200) 3 = gt at hmem ⊢
  by_cases htr : truthyStr s1c1.1.transcript = true
  · exfalso
    simp only [htr, if_true] at hmem
    cases hgt : gt.1 with
    | error e => simp only [hgt] at hmem; simp at hmem
    | ok thumbs =>
        simp only [hgt] at hmem
        cases hrc : inp.renderClicked with
        | false =>
            simp only [hrc, Bool.false_eq_true, if_false] at hmem
            simp [List.mem_append] at hmem
        | true =>
            simp only [hrc, if_true] at hmem
            cases hbv : (build_video o ⟨Dir.tmpRoot, inp.uploadedName⟩
                (thumbs.getD (chooseIdx thumbs.length) ⟨Dir.tmpRoot, ""⟩)
                ⟨Dir.cwd, stem inp.uploadedName ++ ".mp4"⟩).1 with
            | error e =>
                simp only [hbv] at hmem
                simp [List.mem_append] at hmem
            | ok v =>
                simp only [hbv] at hmem
                cases hupc : inp.uploadClicked with
                | false =>
                    simp only [hupc, Bool.false_eq_true, if_false] at hmem
                    simp [List.mem_append] at hmem
                | true =>
                    simp only [hupc, if_true] at hmem
                    cases hu1 : (youtube_uploader w o
                        ⟨Dir.cwd, stem inp.uploadedName ++ ".mp4"⟩
                        (pyReplaceChar '_' ' ' (stem inp.uploadedName))
                        (inp.txEdited.getD (pyShowOpt s1c1.1.transcript))).1 with
                    | ok vid =>
                        simp only [hu1] at hmem
                        simp [List.mem_append] at hmem
                    | error e =>
                        simp only [hu1] at hmem
                        simp [List.mem_append] at hmem
  · simp only [htr, if_false]
    cases hre : inp.retryClicked with
    | true =>
        simp only [hre, if_true]
        refine ⟨rfl, ?_⟩
        intro c hc
        rcases List.mem_append.mp hc with h | h
        · exact hS0 c h
        · rw [do_transcription_calls] at h
          simp at h
          subst h
          rfl
    | false =>
        simp only [hre, Bool.false_eq_true, if_false]
        refine ⟨trivial, ?_⟩
        intro c hc
        rcases List.mem_append.mp hc with h | h
        · exact hS0 c h
        · simp at h

theorem isFfmpegRun_false_of_kind {c : ExtCall} {v : Nat}
    (hk : c.stepKind = v) (hv : ¬ v = 2) : c.isFfmpegRun = false := by
  cases c <;> simp_all [ExtCall.isFfmpegRun, ExtCall.stepKind]

/-- C1: with fixed mocked collaborator responses that all succeed, the
pipeline run produces as its final result exactly the video identifier of
the executed insert request: `youtube_uploader` returns the response's
`id` field and the UI reports that id. -/
theorem C1_pipeline_returns_upload_id (inp : Inputs) (w : World)
    (o : Oracles) (t : String) (r : UploadResponse) (thumbs : List FPath)
    (cs : List ExtCall) (ws : List (FPath × String))
    (hkey : w.openaiKeySet = true) (hff : w.ffmpegExists = true)
    (hup : inp.uploaded = true)
    (hsT : inp.sess.transcript = none)
    (hsE : inp.sess.transcriptionError = none)
    (hw : o.whisper = .ok t) (ht : (pyStrip t).data.isEmpty = false)
    (hg : generate_thumbnails o w (pyTake (pyStrip t) 200) 3 =
      (.ok thumbs, cs, ws))
    (hrc : inp.renderClicked = true) (hupc : inp.uploadClicked = true)
    (htok : w.tokenExists = true) (hexit : o.ffmpegExit = 0)
    (hresp : o.uploadResp = .ok r) :
    (∀ mp4 title desc, (youtube_uploader w o mp4 title desc).1 = .ok r.id) ∧
    UIEvent.success ("Uploaded! https://youtu.be/" ++ r.id) ∈
      (runScript inp w o).events ∧
    (runScript inp w o).outcome = .finished := by
  refine ⟨?_, ?_, ?_⟩
  · intro mp4 title desc
    simp [youtube_uploader, htok, hresp, Except.map, Except.mapError]
  · unfold runScript
    simp [hkey, hff, hup, hsT, hsE, do_transcription,
      transcribe_with_local_whisper, hw, truthyStr, ht, pyShowOpt, hg, hrc,
      build_video, subprocessRun, hexit, hupc, youtube_uploader, htok, hresp,
      Except.map, Except.mapError]
  · unfold runScript
    simp [hkey, hff, hup, hsT, hsE, do_transcription,
      transcribe_with_local_whisper, hw, truthyStr, ht, pyShowOpt, hg, hrc,
      build_video, subprocessRun, hexit, hupc, youtube_uploader, htok, hresp,
      Except.map, Except.mapError]

/-- C4 (amended): every file write of a run lands under the temporary
root, except the rendered MP4, which Step 3 writes into the current
working directory (`Path.cwd()`) under the audio stem — a lasting project
location outside the scratch space. -/
theorem C4_writes_confined (inp : Inputs) (w : World) (o : Oracles)
    (p : FPath) (b : String)
    (hmem : (p, b) ∈ (runScript inp w o).writes) :
    p.dir = Dir.tmpRoot ∨ p = ⟨Dir.cwd, stem inp.uploadedName ++ ".mp4"⟩ := by
  unfold runScript at hmem
  cases hkey : w.openaiKeySet with
  | false => rw [hkey] at hmem; simp at hmem
  | true =>
  cases hff : w.ffmpegExists with
  | false => rw [hkey, hff] at hmem; simp at hmem
  | true =>
  cases hup : inp.uploaded with
  | false => rw [hkey, hff, hup] at hmem; simp at hmem
  | true =>
  simp only [hkey, hff, hup, Bool.not_true, Bool.false_eq_true, if_false,
    if_true] at hmem
  generalize hS : (if (inp.sess.transcript.isNone &&
        inp.sess.transcriptionError.isNone) = true then
      do_transcription o ⟨Dir.tmpRoot, inp.uploadedName⟩ inp.sess
    else (inp.sess, ([] : List ExtCall))) = s1c1 at hmem
  generalize hG : generate_thumbnails o w
      (pyTake (pyShowOpt s1c1.1.transcript) 200) 3 = gt at hmem
  have hW2 : ∀ pb ∈ gt.2.2, (pb : FPath × String).1.dir = Dir.tmpRoot := by
    intro pb hpb
    rw [← hG] at hpb
    exact genThumbsGo_writes_tmp o w _ 3 0 pb hpb
  have horig : ∀ q : String, (p, b) ∈
      ([((⟨Dir.tmpRoot, inp.uploadedName⟩ : FPath), q)] : List (FPath × String)) →
      p.dir = Dir.tmpRoot := by
    intro q hq
    simp at hq
    rw [hq.1]
  have hbv : ∀ a i out : FPath, (p, b) ∈ (build_video o a i out).2.2 →
      p = out := by
    intro a i out hq
    simp only [build_video] at hq
    split at hq
    · simp at hq
      exact hq.1
    · simp at hq
  split at hmem
  · split at hmem
    · rcases List.mem_append.mp hmem with h | h
      · exact Or.inl (horig _ h)
      · exact Or.inl (hW2 _ h)
    · split at hmem
      · split at hmem
        · rcases List.mem_append.mp hmem with h | h
          · rcases List.mem_append.mp h with h | h
            · exact Or.inl (horig _ h)
            · exact Or.inl (hW2 _ h)
          · exact Or.inr (hbv _ _ _ h)
        · split at hmem
          · split at hmem
            all_goals
              rcases List.mem_append.mp hmem with h | h
              · rcases List.mem_append.mp h with h | h
                · exact Or.inl (horig _ h)
                · exact Or.inl (hW2 _ h)
              · exact Or.inr (hbv _ _ _ h)
          · rcases List.mem_append.mp hmem with h | h
            · rcases List.mem_append.mp h with h | h
              · exact Or.inl (horig _ h)
              · exact Or.inl (hW2 _ h)
            · exact Or.inr (hbv _ _ _ h)
      · rcases List.mem_append.mp hmem with h | h
        · exact Or.inl (horig _ h)
        · exact Or.inl (hW2 _ h)
  · exact Or.inl (horig _ hmem)

/-- C5: whenever a render happens, exactly one thumbnail — an element of
the list returned by `generate_thumbnails` — is chosen and passed as the
image input of the single `build_video` shell-out. -/
theorem C5_one_thumbnail_per_render (inp : Inputs) (w : World) (o : Oracles)
    (t : String) (thumbs : List FPath) (cs : List ExtCall)
    (ws : List (FPath × String))
    (hkey : w.openaiKeySet = true) (hff : w.ffmpegExists = true)
    (hup : inp.uploaded = true)
    (hsT : inp.sess.transcript = none)
    (hsE : inp.sess.transcriptionError = none)
    (hw : o.whisper = .ok t) (ht : (pyStrip t).data.isEmpty = false)
    (hg : generate_thumbnails o w (pyTake (pyStrip t) 200) 3 =
      (.ok thumbs, cs, ws))
    (hrc : inp.renderClicked = true) :
    thumbs.getD (chooseIdx thumbs.length) ⟨Dir.tmpRoot, ""⟩ ∈ thumbs ∧
    (runScript inp w o).calls.filter ExtCall.isFfmpegRun =
      [.ffmpegRun ⟨Dir.tmpRoot, inp.uploadedName⟩
        (thumbs.getD (chooseIdx thumbs.length) ⟨Dir.tmpRoot, ""⟩)
        ⟨Dir.cwd, stem inp.uploadedName ++ ".mp4"⟩] := by
  have h1 : (genThumbsGo o w (pyTake (pyStrip t) 200) 0 3).1 = .ok thumbs := by
    rw [generate_thumbnails] at hg
    rw [hg]
  have h2 : (genThumbsGo o w (pyTake (pyStrip t) 200) 0 3).2.1 = cs := by
    rw [generate_thumbnails] at hg
    rw [hg]
  have hlen : thumbs.length = 3 := by
    obtain ⟨hform, _⟩ := genThumbsGo_ok _ _ _ 3 0 thumbs h1
    rw [hform]
    rfl
  have hcs : ∀ c ∈ cs, ExtCall.isFfmpegRun c = false := by
    intro c hc
    exact isFfmpegRun_false_of_kind
      (genThumbsGo_calls_kind o w _ 3 0 c (h2 ▸ hc)) (by decide)
  have hcsnil : List.filter ExtCall.isFfmpegRun cs = [] :=
    List.filter_eq_nil_iff.mpr (fun c hc => by simp [hcs c hc])
  have hupnil : List.filter ExtCall.isFfmpegRun
      (youtube_uploader w o ⟨Dir.cwd, stem inp.uploadedName ++ ".mp4"⟩
        (pyReplaceChar '_' ' ' (stem inp.uploadedName))
        (inp.txEdited.getD (pyStrip t))).2 = [] :=
    List.filter_eq_nil_iff.mpr (fun c hc => by
      simp [isFfmpegRun_false_of_kind
        (youtube_uploader_calls_kind _ _ _ _ _ c hc) (by decide)])
  constructor
  · have hidx : chooseIdx thumbs.length < thumbs.length := by
      rw [hlen]
      decide
    rw [List.getD_eq_getElem _ _ hidx]
    exact List.getElem_mem hidx
  · unfold runScript
    simp only [hkey, hff, hup, hsT, hsE, Bool.not_true, Bool.false_eq_true,
      if_false, if_true, Option.isNone_none, Bool.and_self]
    simp only [do_transcription, transcribe_with_local_whisper, hw]
    simp only [truthyStr, ht, pyShowOpt, Bool.not_false, if_true, hg, hrc]
    cases hz : o.ffmpegExit with
    | zero =>
        simp only [build_video, subprocessRun, hz]
        simp only [reduceIte]
        cases hupc : inp.uploadClicked with
        | false =>
            simp [List.filter_append, hcsnil, ExtCall.isFfmpegRun]
        | true =>
            cases hu : (youtube_uploader w o
                ⟨Dir.cwd, stem inp.uploadedName ++ ".mp4"⟩
                (pyReplaceChar '_' ' ' (stem inp.uploadedName))
                (inp.txEdited.getD (pyStrip t))).1 with
            | ok vid =>
                simp [hu, List.filter_append, hcsnil, hupnil,
                  ExtCall.isFfmpegRun]
            | error e =>
                simp [hu, List.filter_append, hcsnil, hupnil,
                  ExtCall.isFfmpegRun]
    | succ n =>
        simp only [build_video, subprocessRun, hz]
        simp [List.filter_append, hcsnil, ExtCall.isFfmpegRun]

/-- C2 (amended): exceptions from the transcription, video-build, and
upload calls are each surfaced to the UI as an error message; the
transcription step alone offers a manual retry button, and a run showing
that button stopped at transcription with no later step executed;
image-generation exceptions are not caught by the app and abort the run
with no error message; video-build and upload failures are surfaced with
no retry affordance and no structured recovery. -/
theorem C2_exception_surfacing :
    (∀ (inp : Inputs) (w : World) (o : Oracles) (e : ExtErr),
      w.openaiKeySet = true → w.ffmpegExists = true → inp.uploaded = true →
      inp.sess.transcript = none → inp.sess.transcriptionError = none →
      o.whisper = .error e →
      UIEvent.errorMsg ("Transcription failed: " ++ e.msg) ∈
        (runScript inp w o).events ∧
      UIEvent.button "Retry Transcription" ∈ (runScript inp w o).events ∧
      (runScript inp w o).outcome = .stopped) ∧
    (∀ (inp : Inputs) (w : World) (o : Oracles) (t : String) (e : PyError)
        (cs : List ExtCall) (ws : List (FPath × String)),
      w.openaiKeySet = true → w.ffmpegExists = true → inp.uploaded = true →
      inp.sess.transcript = none → inp.sess.transcriptionError = none →
      o.whisper = .ok t → (pyStrip t).data.isEmpty = false →
      generate_thumbnails o w (pyTake (pyStrip t) 200) 3 =
        (.error e, cs, ws) →
      (runScript inp w o).outcome = .uncaught e ∧
      (runScript inp w o).events.all (fun ev => !ev.isErrorMsg) = true) ∧
    (∀ (inp : Inputs) (w : World) (o : Oracles) (t : String)
        (thumbs : List FPath) (cs : List ExtCall)
        (ws : List (FPath × String)),
      w.openaiKeySet = true → w.ffmpegExists = true → inp.uploaded = true →
      inp.sess.transcript = none → inp.sess.transcriptionError = none →
      o.whisper = .ok t → (pyStrip t).data.isEmpty = false →
      generate_thumbnails o w (pyTake (pyStrip t) 200) 3 =
        (.ok thumbs, cs, ws) →
      inp.renderClicked = true → ¬ o.ffmpegExit = 0 →
      (∃ e, UIEvent.errorMsg ("FFmpeg error: " ++ PyError.str e) ∈
        (runScript inp w o).events) ∧
      (runScript inp w o).outcome = .stopped ∧
      UIEvent.button "Retry Transcription" ∉ (runScript inp w o).events) ∧
    (∀ (inp : Inputs) (w : World) (o : Oracles) (t : String)
        (thumbs : List FPath) (cs : List ExtCall)
        (ws : List (FPath × String)) (e : PyError),
      w.openaiKeySet = true → w.ffmpegExists = true → inp.uploaded = true →
      inp.sess.transcript = none → inp.sess.transcriptionError = none →
      o.whisper = .ok t → (pyStrip t).data.isEmpty = false →
      generate_thumbnails o w (pyTake (pyStrip t) 200) 3 =
        (.ok thumbs, cs, ws) →
      inp.renderClicked = true → o.ffmpegExit = 0 →
      inp.uploadClicked = true →
      (youtube_uploader w o ⟨Dir.cwd, stem inp.uploadedName ++ ".mp4"⟩
          (pyReplaceChar '_' ' ' (stem inp.uploadedName))
          (inp.txEdited.getD (pyStrip t))).1 = .error e →
      UIEvent.errorMsg ("Upload failed: " ++ PyError.str e) ∈
        (runScript inp w o).events ∧
      (runScript inp w o).outcome = .finished ∧
      UIEvent.button "Retry Transcription" ∉ (runScript inp w o).events) ∧
    (∀ (inp : Inputs) (w : World) (o : Oracles) (lbl : String),
      UIEvent.button lbl ∈ (runScript inp w o).events →
      lbl = "Retry Transcription" ∨ lbl = "🔧 Render MP4" ∨
      lbl = "⬆️ Upload to YouTube") ∧
    (∀ (inp : Inputs) (w : World) (o : Oracles),
      UIEvent.button "Retry Transcription" ∈ (runScript inp w o).events →
      (runScript inp w o).outcome = .stopped ∧
      ∀ c ∈ (runScript inp w o).calls, c.stepKind = 0) :=
  ⟨fun inp w o e h1 h2 h3 h4 h5 h6 =>
      runScript_transcription_error_surfaced inp w o e h1 h2 h3 h4 h5 h6,
   fun inp w o t e cs ws h1 h2 h3 h4 h5 h6 h7 h8 =>
      runScript_imageGen_uncaught inp w o t e cs ws h1 h2 h3 h4 h5 h6 h7 h8,
   fun inp w o t thumbs cs ws h1 h2 h3 h4 h5 h6 h7 h8 h9 h10 =>
      runScript_ffmpeg_error_surfaced inp w o t thumbs cs ws
        h1 h2 h3 h4 h5 h6 h7 h8 h9 h10,
   fun inp w o t thumbs cs ws e h1 h2 h3 h4 h5 h6 h7 h8 h9 h10 h11 h12 =>
      runScript_upload_error_surfaced inp w o t thumbs cs ws e
        h1 h2 h3 h4 h5 h6 h7 h8 h9 h10 h11 h12,
   fun inp w o lbl h => runScript_button_labels inp w o lbl h,
   fun inp w o h => runScript_retry_stops inp w o h⟩

/-- C2 counterexample: with a failing image-generation collaborator the
run aborts with an uncaught exception and the app shows no error message
at all — so not every external-call exception is surfaced to the UI as an
error message. -/
theorem C2_uncaught_imageGen_counterexample :
    (runScript mockI mockW failImgO).outcome =
      .uncaught (.extError "image API down") ∧
    (runScript mockI mockW failImgO).events.all
      (fun ev => !ev.isErrorMsg) = true := by
  decide

/-- Witness for C2: a run whose transcription call raises shows the error
message and the retry button, and stops. -/
theorem C2_exception_surfacing_witness :
    UIEvent.errorMsg "Transcription failed: whisper down" ∈
      (runScript mockI mockW failWhisperO).events ∧
    UIEvent.button "Retry Transcription" ∈
      (runScript mockI mockW failWhisperO).events ∧
    (runScript mockI mockW failWhisperO).outcome = .stopped :=
  C2_exception_surfacing.1 mockI mockW failWhisperO ⟨"whisper down"⟩
    rfl rfl rfl rfl rfl rfl

/-- Witness for C1: the mocked full run reports the uploaded video id. -/
theorem C1_pipeline_returns_upload_id_witness :
    UIEvent.success "Uploaded! https://youtu.be/abc123" ∈
      (runScript mockI mockW mockO).events :=
  (C1_pipeline_returns_upload_id mockI mockW mockO " hello world "
    ⟨"abc123"⟩ mockThumbs mockThumbCallsHW mockThumbWrites
    rfl rfl rfl rfl rfl rfl rfl rfl rfl rfl rfl rfl rfl).2.1

/-- C4 counterexample: the successful mocked run writes the rendered MP4
into the current working directory, which is not under the temporary
root — output is persisted into a lasting project location. -/
theorem C4_persistence_counterexample :
    ((⟨Dir.cwd, "my_clip.mp4"⟩ : FPath), "VID") ∈
      (runScript mockI mockW mockO).writes ∧
    (⟨Dir.cwd, "my_clip.mp4"⟩ : FPath).dir ≠ Dir.tmpRoot := by
  decide

/-- Witness for C4: the saved upload itself lands under the temporary
root. -/
theorem C4_writes_confined_witness :
    (⟨Dir.tmpRoot, "my_clip.wav"⟩ : FPath).dir = Dir.tmpRoot ∨
    (⟨Dir.tmpRoot, "my_clip.wav"⟩ : FPath) =
      ⟨Dir.cwd, stem mockI.uploadedName ++ ".mp4"⟩ :=
  C4_writes_confined mockI mockW mockO ⟨Dir.tmpRoot, "my_clip.wav"⟩ "AUD"
    (by decide)

/-- Witness for C5: in the mocked run the chosen thumbnail is the third
generated image and it is the image input of the single FFmpeg call. -/
theorem C5_one_thumbnail_per_render_witness :
    mockThumbs.getD (chooseIdx mockThumbs.length) ⟨Dir.tmpRoot, ""⟩ ∈
      mockThumbs ∧
    (runScript mockI mockW mockO).calls.filter ExtCall.isFfmpegRun =
      [.ffmpegRun ⟨Dir.tmpRoot, "my_clip.wav"⟩
        (mockThumbs.getD (chooseIdx mockThumbs.length) ⟨Dir.tmpRoot, ""⟩)
        ⟨Dir.cwd, stem "my_clip.wav" ++ ".mp4"⟩] :=
  C5_one_thumbnail_per_render mockI mockW mockO " hello world " mockThumbs
    mockThumbCallsHW mockThumbWrites rfl rfl rfl rfl rfl rfl rfl rfl rfl



end Audio2YT
